import Mathlib

/-!
Shallow embedding of `src/cliport_label/taskexecutor.py`, the pick/place task
executor for a Franka Panda arm.

Modelling conventions:
* Floating point coordinates are modelled as exact rationals (`ℚ`).
* The side-effecting methods of class `TaskExecutor` are modelled as pure
  functions from an explicit executor state (`ExecState`) to a new state
  together with a trace (`List Event`) of the external calls they issue to
  moveit, the gripper action servers and the error-recovery publisher.
* The perception utilities `get_avg_3d_centroid` and `get_relative_orientation`
  live in `cliport_label.utils`, outside this repository slice; their outputs
  are supplied through an `Oracles` record.  A real-quaternion model of
  `get_relative_orientation`, modelled from the spec, is given separately for
  the rotation-resolution property.
* The executor runs single-threaded here: the asynchronously updated flags
  `robot_in_reflex` and `move_group_status` are fields of the state, fixed for
  the duration of one call, and quantified over in the theorems.
-/

namespace CliportLabel

/-- The actionlib `GoalStatus` codes mirrored by `class GoalStatus(Enum)` in
`taskexecutor.py`. -/
inductive GoalStatus where
  | PENDING
  | ACTIVE
  | PREEMPTED
  | SUCCEEDED
  | ABORTED
  | REJECTED
  | PREEMPTING
  | RECALLING
  | RECALLED
  | LOST
  deriving DecidableEq, Repr

/-- A 3-vector of coordinates, as produced by `get_avg_3d_centroid`. -/
abbrev Vec3 := ℚ × ℚ × ℚ

/-- A quaternion given as its (w, x, y, z) components, the `wxyz` convention
used by `taskexecutor.py` for `ee_wxyz` and `target_wxyz`. -/
abbrev Quat4 := ℚ × ℚ × ℚ × ℚ

/-- A `geometry_msgs.msg.Pose`: position `(px, py, pz)` and orientation
`(ow, ox, oy, oz)`. -/
structure PoseMsg where
  px : ℚ
  py : ℚ
  pz : ℚ
  ow : ℚ
  ox : ℚ
  oy : ℚ
  oz : ℚ
  deriving DecidableEq, Repr

/-- One pose record stored in the pick/place chain: the `(target_xyz,
target_wxyz)` pair appended by `pick`/`place`. -/
abbrev PoseRec := Vec3 × Quat4

/-- One external call issued by the executor: moveit planning/execution calls,
gripper action goals, the recovery publish, and the warning logs that stand in
for skipped steps. -/
inductive Event where
  | stopMoveGroup
  | clearPoseTargets
  | planJointTarget (values : List ℚ)
  | computeCartesianPath (waypoints : List PoseMsg) (eef_step : ℚ) (jump_threshold : ℚ)
  | retimeTrajectory (scale : ℚ)
  | executeTrajectory (wait : Bool)
  | logBusySkip
  | logPlanFailure
  | gripperMove (width : ℚ) (speed : ℚ)
  | gripperGrasp (width : ℚ) (speed : ℚ) (force : ℚ)
  | recoveryPublish
  | initPathConstraints
  deriving DecidableEq, Repr

/-- The mutable state of a `TaskExecutor` instance: the fault flag, the last
known move-group status, the gripper-enable configuration flag, the home
end-effector orientation and the two chain lists `pick_pose` / `place_pose`. -/
structure ExecState where
  robot_in_reflex : Bool
  move_group_status : GoalStatus
  enable_gripper : Bool
  default_ee : Quat4
  pick_pose : List (Option PoseRec)
  place_pose : List (Option PoseRec)
  deriving DecidableEq, Repr

/-- Outputs of the external collaborators consumed during one `pick`/`place`
call: the 3D centroid estimator, the relative-orientation utility and the
success flag of the joint-space home plan returned by `move_group.plan()`. -/
structure Oracles where
  avg_3d_centroid : Nat → List Int → Vec3
  rel_orientation : Quat4 → Int → Quat4
  home_plan_ok : Bool

/-- The `TaskInfo` dataclass: the image payloads are opaque here (only handed
to the external centroid estimator), the rotation class is an integer. -/
structure TaskInfo where
  img_depth : Nat
  bbox : List Int
  rotation : Int
  deriving DecidableEq, Repr

/-- Line 72 of the source: `self.rotation_angles = 10`; the yaw angle of
rotation class `k` is `rotation_angles * k`. -/
def rotation_angles : Int := 10

/-- Safety band lower bound for waypoint z, from `execute_cartesian_path`. -/
def z_min : ℚ := 1/100

/-- Safety band upper bound for waypoint z, from `execute_cartesian_path`. -/
def z_max : ℚ := 30/100

/-- The in-place z correction `execute_cartesian_path` applies to each
waypoint: first raise to `z_min` if below, then lower to `z_max` if above. -/
def clamp_z (z : ℚ) : ℚ :=
  let z1 := if z < z_min then z_min else z
  if z1 > z_max then z_max else z1

/-- Apply the z safety correction to one waypoint pose. -/
def clampPose (p : PoseMsg) : PoseMsg := { p with pz := clamp_z p.pz }

/-- Shared body of `reset_pick` / `reset_place`: `task_pos = len(l) - 1`; if
`task_pos > -1` overwrite `l[task_pos]` with `None`, otherwise only log. -/
def reset_last {α : Type} (l : List (Option α)) : List (Option α) :=
  if l.length = 0 then l else l.set (l.length - 1) none

/-- Shared body of the recording step at the end of `pick` / `place`:
`task_n = len(l) - 1`; try `l[task_n] = p`, and on `IndexError` (empty list)
append `p` instead. -/
def record_last {α : Type} (l : List (Option α)) (p : α) : List (Option α) :=
  if l.length = 0 then l ++ [some (p : α)] else l.set (l.length - 1) (some p)

/-- Method `stop`: `move_group.stop()` then `move_group.clear_pose_targets()`. -/
def stop : List Event := [Event.stopMoveGroup, Event.clearPoseTargets]

/-- Method `recover`: `self.stop()` then publish an `ErrorRecoveryActionGoal`. -/
def recover : List Event := stop ++ [Event.recoveryPublish]

/-- The hard-coded joint target of method `home` (exact decimal values of the
literals in the source). -/
def home_joint_values : List ℚ :=
  [2472882756288363/10000000000000000000,
   -7854469971154865/10000000000000000,
   20762182355719505/100000000000000000000,
   -23573765974308567/10000000000000000,
   8450016330628508/10000000000000000000,
   15715642473167843/10000000000000000,
   7857555058451898/10000000000000000]

/-- Method `execute_plan(plan, wait)`: if the last known move-group status is
`ACTIVE`, log that the robot is busy and return without executing; otherwise
execute the plan when planning succeeded (`plan[0]`), and log a planning
failure when it did not. -/
def execute_plan (s : ExecState) (plan_ok : Bool) (wait : Bool) : List Event :=
  if s.move_group_status = GoalStatus.ACTIVE then [Event.logBusySkip]
  else if plan_ok then [Event.executeTrajectory wait]
  else [Event.logPlanFailure]

/-- Method `home(wait)`: recover when in reflex, otherwise clear pose targets,
plan the fixed joint target, run it through `execute_plan`, and recompute the
path constraints. -/
def home (s : ExecState) (ora : Oracles) (wait : Bool) : List Event :=
  if s.robot_in_reflex then recover
  else [Event.clearPoseTargets, Event.planJointTarget home_joint_values]
       ++ execute_plan s ora.home_plan_ok wait ++ [Event.initPathConstraints]

/-- Method `execute_cartesian_path(waypoints, velocity_scaling_factor)`: clamp
each waypoint z into the safety band, ask the planner for a Cartesian path
(`eef_step = 0.01`, `jump_threshold = 0.0`), retime it to the requested scale,
then hand it to `execute_plan` (with `wait = True`).  The executor state is
returned unchanged: the method touches no chain field. -/
def execute_cartesian_path (s : ExecState) (waypoints : List PoseMsg)
    (velocity_scaling_factor : ℚ) : ExecState × List Event :=
  (s, [Event.computeCartesianPath (waypoints.map clampPose) (1/100) 0,
       Event.retimeTrajectory velocity_scaling_factor]
      ++ execute_plan s true true)

/-- Method `open_gripper`: a `MoveGoal(width=0.08, speed=0.1)` when the
gripper is enabled by configuration, a no-op otherwise. -/
def open_gripper (s : ExecState) : List Event :=
  if s.enable_gripper then [Event.gripperMove (8/100) (1/10)] else []

/-- Method `close_gripper`: a `GraspGoal(width=0.00, speed=0.1, force=5)` when
the gripper is enabled by configuration, a no-op otherwise. -/
def close_gripper (s : ExecState) : List Event :=
  if s.enable_gripper then [Event.gripperGrasp 0 (1/10) 5] else []

/-- Spec §4.3: the gateway is busy iff the last known planner status equals
`ACTIVE` (the inline check of `execute_plan`). -/
def is_busy (s : ExecState) : Bool :=
  decide (s.move_group_status = GoalStatus.ACTIVE)

/-- Method `reset_pick`: null out the last pick slot (no-op on an empty
chain). -/
def reset_pick (s : ExecState) : ExecState :=
  { s with pick_pose := reset_last s.pick_pose }

/-- Method `reset_place`: null out the last place slot (no-op on an empty
chain). -/
def reset_place (s : ExecState) : ExecState :=
  { s with place_pose := reset_last s.place_pose }

/-- Method `reset_task`: clear both chain lists. -/
def reset_task (s : ExecState) : ExecState :=
  { s with pick_pose := [], place_pose := [] }

/-- Method `save_task_to_chain`: open a new slot by appending `None` to both
lists. -/
def save_task_to_chain (s : ExecState) : ExecState :=
  { s with pick_pose := s.pick_pose ++ [none], place_pose := s.place_pose ++ [none] }

/-- Method `is_valid`: no `None` in the pick list, no `None` in the place
list, and the two lists have equal length. -/
def is_valid (s : ExecState) : Bool :=
  let pick_is_valid := !(s.pick_pose.contains none)
  let place_is_valid := !(s.place_pose.contains none)
  let same_length := s.pick_pose.length == s.place_pose.length
  pick_is_valid && place_is_valid && same_length

/-- Method `data_exists`: the last slot of each list exists and is non-`None`
(`IndexError` on an empty list makes both flags false). -/
def data_exists (s : ExecState) : Bool :=
  if s.pick_pose.length = 0 ∨ s.place_pose.length = 0 then false
  else (s.pick_pose.getLast?.getD none).isSome
       && (s.place_pose.getLast?.getD none).isSome

/-- Method `pick(data)`: recover when in reflex; otherwise reset the current
pick slot, stop and home, resolve the target position and orientation, move
above the target (`z + 0.035`) at scale 0.4 and open the gripper, move below
the target (`z - 0.02`) at scale 0.05 and close the gripper, move back above
at scale 0.1, and record the raw `(target_xyz, target_wxyz)` in the current
pick slot. -/
def pick (s : ExecState) (ora : Oracles) (data : TaskInfo) : ExecState × List Event :=
  if s.robot_in_reflex then (s, recover)
  else
    let s1 := reset_pick s
    let z_offset_up : ℚ := 35/1000
    let z_offset_down : ℚ := 2/100
    let tr0 := stop ++ home s1 ora true
    let target_xyz := ora.avg_3d_centroid data.img_depth data.bbox
    let ee_wxyz := s1.default_ee
    let target_wxyz := ora.rel_orientation ee_wxyz (data.rotation * rotation_angles)
    let pose : PoseMsg :=
      ⟨target_xyz.1, target_xyz.2.1, target_xyz.2.2,
       target_wxyz.1, target_wxyz.2.1, target_wxyz.2.2.1, target_wxyz.2.2.2⟩
    let pose_up := { pose with pz := pose.pz + z_offset_up }
    let pose_down := { pose with pz := pose.pz - z_offset_down }
    let tr1 := (execute_cartesian_path s1 [pose_up] (4/10)).2 ++ open_gripper s1
    let tr2 := (execute_cartesian_path s1 [pose_down] (5/100)).2 ++ close_gripper s1
    let tr3 := (execute_cartesian_path s1 [pose_up] (1/10)).2
    ({ s1 with pick_pose := record_last s1.pick_pose (target_xyz, target_wxyz) },
     tr0 ++ tr1 ++ tr2 ++ tr3)

/-- Method `place(data)`: recover when in reflex; otherwise reset the current
place slot, stop and home, resolve the target position, raise its z by the
fixed placement offset 0.080, resolve the orientation, move to the offset
target at scale 0.2 and open the gripper, and record the offset
`(target_xyz, target_wxyz)` in the current place slot. -/
def place (s : ExecState) (ora : Oracles) (data : TaskInfo) : ExecState × List Event :=
  if s.robot_in_reflex then (s, recover)
  else
    let s1 := reset_place s
    let z_offset_up : ℚ := 80/1000
    let tr0 := stop ++ home s1 ora true
    let raw_xyz := ora.avg_3d_centroid data.img_depth data.bbox
    let target_xyz : Vec3 := (raw_xyz.1, raw_xyz.2.1, raw_xyz.2.2 + z_offset_up)
    let ee_wxyz := s1.default_ee
    let target_wxyz := ora.rel_orientation ee_wxyz (data.rotation * rotation_angles)
    let pose : PoseMsg :=
      ⟨target_xyz.1, target_xyz.2.1, target_xyz.2.2,
       target_wxyz.1, target_wxyz.2.1, target_wxyz.2.2.1, target_wxyz.2.2.2⟩
    let tr1 := (execute_cartesian_path s1 [pose] (2/10)).2 ++ open_gripper s1
    ({ s1 with place_pose := record_last s1.place_pose (target_xyz, target_wxyz) },
     tr0 ++ tr1)

/-- A planner invocation: joint-target planning, Cartesian-path computation or
trajectory retiming. -/
def isPlannerCall : Event → Bool
  | Event.planJointTarget _ => true
  | Event.computeCartesianPath _ _ _ => true
  | Event.retimeTrajectory _ => true
  | _ => false

/-- A trajectory-execution command sent to the move group. -/
def isExecuteCall : Event → Bool
  | Event.executeTrajectory _ => true
  | _ => false

/-- A gripper actuation goal. -/
def isGripperCall : Event → Bool
  | Event.gripperMove _ _ => true
  | Event.gripperGrasp _ _ _ => true
  | _ => false

/-- Abstract view of the motion-relevant steps of a trace, used to state the
pick/place sequencing properties. -/
inductive Step where
  | jointPlan
  | planTo (waypoints : List PoseMsg)
  | retimed (scale : ℚ)
  | gripOpen
  | gripClose
  deriving DecidableEq, Repr

/-- Project one event onto its motion-relevant step, if any. -/
def stepView : Event → Option Step
  | Event.planJointTarget _ => some Step.jointPlan
  | Event.computeCartesianPath w _ _ => some (Step.planTo w)
  | Event.retimeTrajectory v => some (Step.retimed v)
  | Event.gripperMove _ _ => some Step.gripOpen
  | Event.gripperGrasp _ _ _ => some Step.gripClose
  | _ => none

/-- The target position `pick`/`place` resolve through the external centroid
estimator (line 158 and line 214 of the source). -/
def resolved_xyz (ora : Oracles) (d : TaskInfo) : Vec3 :=
  ora.avg_3d_centroid d.img_depth d.bbox

/-- The target orientation `pick`/`place` resolve: the home end-effector
orientation rotated by `rotation * rotation_angles` (lines 161-165, 219-223). -/
def resolved_wxyz (s : ExecState) (ora : Oracles) (d : TaskInfo) : Quat4 :=
  ora.rel_orientation s.default_ee (d.rotation * rotation_angles)

/-- The offset target position of `place`: the resolved centroid with z raised
by the fixed placement offset 0.080 (line 216 of the source). -/
def place_target_xyz (ora : Oracles) (d : TaskInfo) : Vec3 :=
  ((resolved_xyz ora d).1, (resolved_xyz ora d).2.1, (resolved_xyz ora d).2.2 + 80/1000)

/-- Build the `geometry_msgs` pose for a target position and orientation. -/
def mkPoseMsg (xyz : Vec3) (wxyz : Quat4) : PoseMsg :=
  ⟨xyz.1, xyz.2.1, xyz.2.2, wxyz.1, wxyz.2.1, wxyz.2.2.1, wxyz.2.2.2⟩

/- Concrete fixtures used by the witnesses and counterexamples. -/

/-- A sample waypoint pose with in-band z. -/
def testPose : PoseMsg := ⟨3/10, 0, 5/100, 1, 0, 0, 0⟩

/-- A sample chain record. -/
def testRec : PoseRec := ((3/10, 0, 5/100), (1, 0, 0, 0))

/-- An executor whose last known move-group status is `ACTIVE` (busy). -/
def busyState : ExecState :=
  ⟨false, GoalStatus.ACTIVE, true, (1, 0, 0, 0), [], []⟩

/-- An executor whose robot is in reflex (fault) mode, with a non-empty chain. -/
def faultedState : ExecState :=
  ⟨true, GoalStatus.PENDING, true, (1, 0, 0, 0), [some testRec], [none]⟩

/-- An idle, non-faulted executor with an empty chain. -/
def readyState : ExecState :=
  ⟨false, GoalStatus.SUCCEEDED, true, (1, 0, 0, 0), [], []⟩

/-- A partially filled chain: the pick slot recorded, the place slot open. -/
def chainState1 : ExecState :=
  ⟨false, GoalStatus.PENDING, true, (1, 0, 0, 0), [some testRec], [none]⟩

/-- Sample collaborator outputs: centroid `(0.3, 0.0, 0.05)`, identity
relative-orientation, home planning succeeding. -/
def testOracles : Oracles :=
  ⟨fun _ _ => (3/10, 0, 5/100), fun q _ => q, true⟩

/-- A sample perception result with rotation class 2. -/
def testTask : TaskInfo := ⟨0, [], 2⟩

/- Helper lemmas shared by the claim proofs. -/

/-- Values already inside the safety band pass through the clamp unchanged. -/
theorem clamp_z_eq_self (z : ℚ) (h1 : z_min ≤ z) (h2 : z ≤ z_max) :
    clamp_z z = z := by
  simp only [clamp_z]
  rw [if_neg (not_lt.mpr h1), if_neg (not_lt.mpr h2)]

/-- Resetting the last slot twice equals resetting it once. -/
theorem reset_last_idem {α : Type} (l : List (Option α)) :
    reset_last (reset_last l) = reset_last l := by
  unfold reset_last
  by_cases h : l.length = 0
  · simp [h]
  · simp [h, List.length_set, List.set_set]

/-- No branch of `execute_plan` contributes a motion-relevant step: it either
executes an already computed plan, or logs a skip. -/
theorem filterMap_stepView_execute_plan (s : ExecState) (ok w : Bool) :
    (execute_plan s ok w).filterMap stepView = [] := by
  unfold execute_plan
  split_ifs <;> rfl

/-- A non-faulted `home` contributes exactly one joint-space planning step,
whatever the busy status and the planning outcome. -/
theorem filterMap_stepView_home (s : ExecState) (ora : Oracles) (w : Bool)
    (h : s.robot_in_reflex = false) :
    (home s ora w).filterMap stepView = [Step.jointPlan] := by
  simp [home, h, List.filterMap_append, filterMap_stepView_execute_plan, stepView]

/-- C3: for every chain state, `is_valid()` returns true iff no entry of the
pick list is `None`, no entry of the place list is `None`, and the two lists
have equal length; no further (content) condition is checked. -/
theorem is_valid_iff (s : ExecState) :
    is_valid s = true ↔
      (none ∉ s.pick_pose ∧ none ∉ s.place_pose ∧
       s.pick_pose.length = s.place_pose.length) := by
  simp [is_valid, and_assoc]

/-- C3 witness: the characterization evaluated on a chain with a filled pick
slot and an open place slot. -/
theorem is_valid_iff_witness :
    is_valid chainState1 = true ↔
      (none ∉ chainState1.pick_pose ∧ none ∉ chainState1.place_pose ∧
       chainState1.pick_pose.length = chainState1.place_pose.length) :=
  is_valid_iff chainState1

/-- C4: for every input z, the clamped value lies in `[0.01, 0.30]`; in-band
values pass through unchanged (the clamp is idempotent) and out-of-range
values are set to the nearest bound; `execute_cartesian_path` hands the
planner exactly the clamped waypoints. -/
theorem clamp_z_band (z : ℚ) (s : ExecState) (w : List PoseMsg) (v : ℚ) :
    z_min ≤ clamp_z z ∧ clamp_z z ≤ z_max ∧
    (z_min ≤ z ∧ z ≤ z_max → clamp_z z = z) ∧
    (z < z_min → clamp_z z = z_min) ∧
    (z_max < z → clamp_z z = z_max) ∧
    clamp_z (clamp_z z) = clamp_z z ∧
    (execute_cartesian_path s w v).2 =
      Event.computeCartesianPath (w.map clampPose) (1/100) 0 ::
        Event.retimeTrajectory v :: execute_plan s true true := by
  have hb : z_min ≤ z_max := by norm_num [z_min, z_max]
  have hlo : z_min ≤ clamp_z z := by
    simp only [clamp_z]
    split_ifs <;> linarith
  have hhi : clamp_z z ≤ z_max := by
    simp only [clamp_z]
    split_ifs <;> linarith
  refine ⟨hlo, hhi, fun h => clamp_z_eq_self z h.1 h.2, ?_, ?_, ?_, rfl⟩
  · intro h
    simp only [clamp_z]
    rw [if_pos h, if_neg (not_lt.mpr hb)]
  · intro h
    have h1 : ¬ z < z_min := by linarith
    simp only [clamp_z]
    rw [if_neg h1, if_pos h]
  · exact clamp_z_eq_self (clamp_z z) hlo hhi

/-- C4 witness: an in-band z (0.05) is left unchanged by the clamp. -/
theorem clamp_z_band_witness : clamp_z (5/100) = 5/100 :=
  (clamp_z_band (5/100) readyState [testPose] (4/10)).2.2.1 (by norm_num [z_min, z_max])

/-- C8: resetting the current pick or place slot of an empty chain is a total
no-op that leaves the chain empty; on a non-empty chain it sets only the last
entry of the corresponding list to `None` and leaves the other list untouched;
both operations are idempotent. -/
theorem reset_current_spec (s : ExecState) :
    (s.pick_pose = [] → reset_pick s = s) ∧
    (s.place_pose = [] → reset_place s = s) ∧
    (s.pick_pose ≠ [] →
      (reset_pick s).pick_pose = s.pick_pose.set (s.pick_pose.length - 1) none) ∧
    (s.place_pose ≠ [] →
      (reset_place s).place_pose = s.place_pose.set (s.place_pose.length - 1) none) ∧
    (reset_pick s).place_pose = s.place_pose ∧
    (reset_place s).pick_pose = s.pick_pose ∧
    reset_pick (reset_pick s) = reset_pick s ∧
    reset_place (reset_place s) = reset_place s := by
  obtain ⟨rfx, st, gr, ee, pp, plp⟩ := s
  refine ⟨?_, ?_, ?_, ?_, rfl, rfl, ?_, ?_⟩
  · intro h
    simp only [ExecState.pick_pose] at h
    subst h
    simp [reset_pick, reset_last]
  · intro h
    simp only [ExecState.place_pose] at h
    subst h
    simp [reset_place, reset_last]
  · intro h
    simp [reset_pick, reset_last, List.length_eq_zero, h]
  · intro h
    simp [reset_place, reset_last, List.length_eq_zero, h]
  · simp [reset_pick, reset_last_idem]
  · simp [reset_place, reset_last_idem]

/-- C8 witness: resetting the pick slot of an empty chain leaves the state
unchanged, and resetting a one-slot chain nulls its last (only) pick entry. -/
theorem reset_current_spec_witness :
    reset_pick readyState = readyState ∧
    (reset_pick chainState1).pick_pose =
      chainState1.pick_pose.set (chainState1.pick_pose.length - 1) none :=
  ⟨(reset_current_spec readyState).1 rfl,
   (reset_current_spec chainState1).2.2.1 (by decide)⟩

/-- C9: the recording step at the end of `pick`/`place` writes into the last
slot of the corresponding list when one exists, and appends the pose as a new
entry (instead of failing) when the list is empty. -/
theorem record_last_spec {α : Type} (l : List (Option α)) (p : α) :
    (l = [] → record_last l p = [some p]) ∧
    (l ≠ [] → record_last l p = l.set (l.length - 1) (some p)) := by
  constructor
  · intro h
    simp [record_last, h]
  · intro h
    simp [record_last, List.length_eq_zero, h]

/-- C9 witness: recording on an empty chain appends; recording on a one-slot
chain overwrites the last slot. -/
theorem record_last_spec_witness :
    record_last ([] : List (Option PoseRec)) testRec = [some testRec] ∧
    record_last [(none : Option PoseRec)] testRec =
      [(none : Option PoseRec)].set 0 (some testRec) :=
  ⟨(record_last_spec [] testRec).1 rfl,
   (record_last_spec [none] testRec).2 (by decide)⟩

/-- C1 counterexample: with the gateway busy (`is_busy` true, status
`ACTIVE`), `execute_cartesian_path` still issues planner calls — the Cartesian
plan is computed and retimed before the busy check, which only guards the
execution.  This refutes the claim that no planner call is made. -/
theorem execute_cartesian_busy_counterexample :
    is_busy busyState = true ∧
    (execute_cartesian_path busyState [testPose] (4/10)).2.any isPlannerCall = true := by
  exact ⟨rfl, rfl⟩

/-- C1 (amended): issuing `execute_cartesian_path` while `is_busy()` is true
still invokes the planner to compute and retime the Cartesian plan, but no
trajectory execution is issued (the command is dropped with a logged busy
skip, not queued) and the executor state — in particular the pick/place
chain — is unchanged. -/
theorem execute_cartesian_busy_no_execution (s : ExecState) (w : List PoseMsg)
    (v : ℚ) (h : is_busy s = true) :
    (execute_cartesian_path s w v).2.any isExecuteCall = false ∧
    (execute_cartesian_path s w v).2.getLast? = some Event.logBusySkip ∧
    (execute_cartesian_path s w v).1 = s := by
  have hst : s.move_group_status = GoalStatus.ACTIVE := of_decide_eq_true h
  refine ⟨?_, ?_, rfl⟩
  · simp [execute_cartesian_path, execute_plan, hst, isExecuteCall]
  · simp [execute_cartesian_path, execute_plan, hst]

/-- C1 witness: the amended property evaluated on a busy executor and one
concrete waypoint. -/
theorem execute_cartesian_busy_no_execution_witness :
    (execute_cartesian_path busyState [testPose] (2/10)).2.any isExecuteCall = false ∧
    (execute_cartesian_path busyState [testPose] (2/10)).2.getLast? =
      some Event.logBusySkip ∧
    (execute_cartesian_path busyState [testPose] (2/10)).1 = busyState :=
  execute_cartesian_busy_no_execution busyState [testPose] (2/10) rfl

/-- C2: when the fault flag is set, `pick` and `place` invoke only `recover`
(stop, clear targets, publish a recovery goal): the trace contains no planner
call, no trajectory execution and no gripper actuation, and the executor
state — in particular both chain lists — is unchanged. -/
theorem fault_short_circuit (s : ExecState) (ora : Oracles) (d : TaskInfo)
    (h : s.robot_in_reflex = true) :
    (pick s ora d).2 = recover ∧
    (place s ora d).2 = recover ∧
    (pick s ora d).1 = s ∧
    (place s ora d).1 = s ∧
    recover.any isPlannerCall = false ∧
    recover.any isExecuteCall = false ∧
    recover.any isGripperCall = false := by
  refine ⟨?_, ?_, ?_, ?_, rfl, rfl, rfl⟩ <;> simp [pick, place, h]

/-- C2 witness: a faulted executor with a non-empty chain; both calls reduce
to the recovery trace and leave the state intact. -/
theorem fault_short_circuit_witness :
    (pick faultedState testOracles testTask).2 = recover ∧
    (place faultedState testOracles testTask).2 = recover ∧
    (pick faultedState testOracles testTask).1 = faultedState ∧
    (place faultedState testOracles testTask).1 = faultedState ∧
    recover.any isPlannerCall = false ∧
    recover.any isExecuteCall = false ∧
    recover.any isGripperCall = false :=
  fault_short_circuit faultedState testOracles testTask rfl

/-- C10: for every planner status (including `ACTIVE`, where every motion step
is skipped as busy) and every home-planning outcome, a non-faulted `pick`
(resp. `place`) ends by recording the resolved pose into the pick (resp.
place) chain; the resulting chain does not depend on the motion outcomes and
no roll-back occurs. -/
theorem record_unconditional (s : ExecState) (ora : Oracles) (d : TaskInfo)
    (st : GoalStatus) (b : Bool) (hr : s.robot_in_reflex = false) :
    (pick { s with move_group_status := st } { ora with home_plan_ok := b } d).1.pick_pose
      = record_last (reset_last s.pick_pose) (resolved_xyz ora d, resolved_wxyz s ora d) ∧
    (pick { s with move_group_status := st } { ora with home_plan_ok := b } d).1.place_pose
      = s.place_pose ∧
    (place { s with move_group_status := st } { ora with home_plan_ok := b } d).1.place_pose
      = record_last (reset_last s.place_pose) (place_target_xyz ora d, resolved_wxyz s ora d) ∧
    (place { s with move_group_status := st } { ora with home_plan_ok := b } d).1.pick_pose
      = s.pick_pose := by
  refine ⟨?_, ?_, ?_, ?_⟩ <;>
    simp [pick, place, hr, reset_pick, reset_place, resolved_xyz, resolved_wxyz,
      place_target_xyz]

/-- C10 witness: with the gateway busy (`ACTIVE`) and home planning failing,
`pick` still records the resolved pose into the chain. -/
theorem record_unconditional_witness :
    (pick { readyState with move_group_status := GoalStatus.ACTIVE }
        { testOracles with home_plan_ok := false } testTask).1.pick_pose
      = record_last (reset_last readyState.pick_pose)
          (resolved_xyz testOracles testTask, resolved_wxyz readyState testOracles testTask) :=
  (record_unconditional readyState testOracles testTask GoalStatus.ACTIVE false rfl).1

/-- C5: a non-faulted `pick` (with the gripper enabled and the approach poses
inside the safety band) performs, in this order: the joint-space home plan,
a Cartesian move to the target raised by 0.035 at scale 0.4, gripper open,
a Cartesian move to the target lowered by 0.02 at scale 0.05, gripper close,
a Cartesian move back to the raised target at scale 0.1; it then records the
un-offset `(target_xyz, target_wxyz)` in the current pick slot and leaves the
place list untouched. -/
theorem pick_sequence (s : ExecState) (ora : Oracles) (d : TaskInfo)
    (hr : s.robot_in_reflex = false) (hg : s.enable_gripper = true)
    (hlo : 3/100 ≤ (resolved_xyz ora d).2.2)
    (hhi : (resolved_xyz ora d).2.2 ≤ 265/1000) :
    (pick s ora d).2.filterMap stepView =
      [Step.jointPlan,
       Step.planTo [{ mkPoseMsg (resolved_xyz ora d) (resolved_wxyz s ora d) with
                        pz := (resolved_xyz ora d).2.2 + 35/1000 }],
       Step.retimed (4/10), Step.gripOpen,
       Step.planTo [{ mkPoseMsg (resolved_xyz ora d) (resolved_wxyz s ora d) with
                        pz := (resolved_xyz ora d).2.2 - 2/100 }],
       Step.retimed (5/100), Step.gripClose,
       Step.planTo [{ mkPoseMsg (resolved_xyz ora d) (resolved_wxyz s ora d) with
                        pz := (resolved_xyz ora d).2.2 + 35/1000 }],
       Step.retimed (1/10)] ∧
    (pick s ora d).1.pick_pose =
      record_last (reset_last s.pick_pose) (resolved_xyz ora d, resolved_wxyz s ora d) ∧
    (pick s ora d).1.place_pose = s.place_pose := by
  have h1 : clamp_z ((resolved_xyz ora d).2.2 + 35/1000) =
      (resolved_xyz ora d).2.2 + 35/1000 :=
    clamp_z_eq_self _ (by unfold z_min; linarith) (by unfold z_max; linarith)
  have h2 : clamp_z ((resolved_xyz ora d).2.2 - 2/100) =
      (resolved_xyz ora d).2.2 - 2/100 :=
    clamp_z_eq_self _ (by unfold z_min; linarith) (by unfold z_max; linarith)
  simp only [resolved_xyz] at h1 h2
  refine ⟨?_, ?_, ?_⟩ <;>
    simp [pick, hr, hg, stop, execute_cartesian_path, open_gripper, close_gripper,
      reset_pick, stepView, clampPose, mkPoseMsg, resolved_xyz, resolved_wxyz,
      List.filterMap_append, filterMap_stepView_execute_plan, filterMap_stepView_home,
      h1, h2]

/-- C5 witness: the pick sequence evaluated on an idle executor with the
sample centroid `(0.3, 0.0, 0.05)` and rotation class 2. -/
theorem pick_sequence_witness :
    (pick readyState testOracles testTask).2.filterMap stepView =
      [Step.jointPlan,
       Step.planTo [{ mkPoseMsg (resolved_xyz testOracles testTask)
                        (resolved_wxyz readyState testOracles testTask) with
                        pz := (resolved_xyz testOracles testTask).2.2 + 35/1000 }],
       Step.retimed (4/10), Step.gripOpen,
       Step.planTo [{ mkPoseMsg (resolved_xyz testOracles testTask)
                        (resolved_wxyz readyState testOracles testTask) with
                        pz := (resolved_xyz testOracles testTask).2.2 - 2/100 }],
       Step.retimed (5/100), Step.gripClose,
       Step.planTo [{ mkPoseMsg (resolved_xyz testOracles testTask)
                        (resolved_wxyz readyState testOracles testTask) with
                        pz := (resolved_xyz testOracles testTask).2.2 + 35/1000 }],
       Step.retimed (1/10)] ∧
    (pick readyState testOracles testTask).1.pick_pose =
      record_last (reset_last readyState.pick_pose)
        (resolved_xyz testOracles testTask, resolved_wxyz readyState testOracles testTask) ∧
    (pick readyState testOracles testTask).1.place_pose = readyState.place_pose :=
  pick_sequence readyState testOracles testTask rfl rfl
    (by norm_num [resolved_xyz, testOracles])
    (by norm_num [resolved_xyz, testOracles])

/-- C6: a non-faulted `place` (with the gripper enabled and the offset target
inside the safety band) raises the resolved target z by the fixed placement
offset 0.080 before any motion, performs the home plan followed by a single
Cartesian move to the offset target at scale 0.2 and a gripper open, and
records the offset pose — not the raw resolved pose — in the current place
slot, leaving the pick list untouched. -/
theorem place_sequence (s : ExecState) (ora : Oracles) (d : TaskInfo)
    (hr : s.robot_in_reflex = false) (hg : s.enable_gripper = true)
    (hlo : z_min ≤ (resolved_xyz ora d).2.2 + 80/1000)
    (hhi : (resolved_xyz ora d).2.2 + 80/1000 ≤ z_max) :
    (place s ora d).2.filterMap stepView =
      [Step.jointPlan,
       Step.planTo [mkPoseMsg (place_target_xyz ora d) (resolved_wxyz s ora d)],
       Step.retimed (2/10), Step.gripOpen] ∧
    (place s ora d).1.place_pose =
      record_last (reset_last s.place_pose)
        (place_target_xyz ora d, resolved_wxyz s ora d) ∧
    (place_target_xyz ora d).2.2 = (resolved_xyz ora d).2.2 + 80/1000 ∧
    (place s ora d).1.pick_pose = s.pick_pose := by
  have h1 : clamp_z ((resolved_xyz ora d).2.2 + 80/1000) =
      (resolved_xyz ora d).2.2 + 80/1000 := clamp_z_eq_self _ hlo hhi
  simp only [resolved_xyz] at h1
  refine ⟨?_, ?_, rfl, ?_⟩ <;>
    simp [place, hr, hg, stop, execute_cartesian_path, open_gripper,
      reset_place, stepView, clampPose, mkPoseMsg, resolved_xyz, resolved_wxyz,
      place_target_xyz, List.filterMap_append, filterMap_stepView_execute_plan,
      filterMap_stepView_home, h1]

/-- C6 witness: the place sequence evaluated on an idle executor with the
sample centroid; the offset target z is `0.05 + 0.080 = 0.13`, inside the
band. -/
theorem place_sequence_witness :
    (place readyState testOracles testTask).2.filterMap stepView =
      [Step.jointPlan,
       Step.planTo [mkPoseMsg (place_target_xyz testOracles testTask)
                      (resolved_wxyz readyState testOracles testTask)],
       Step.retimed (2/10), Step.gripOpen] ∧
    (place readyState testOracles testTask).1.place_pose =
      record_last (reset_last readyState.place_pose)
        (place_target_xyz testOracles testTask,
         resolved_wxyz readyState testOracles testTask) ∧
    (place_target_xyz testOracles testTask).2.2 =
      (resolved_xyz testOracles testTask).2.2 + 80/1000 ∧
    (place readyState testOracles testTask).1.pick_pose = readyState.pick_pose :=
  place_sequence readyState testOracles testTask rfl rfl
    (by norm_num [resolved_xyz, testOracles, z_min])
    (by norm_num [resolved_xyz, testOracles, z_max])

/-- Modelled from the spec: the unit quaternion of a rotation about the
vertical axis by the given angle in degrees (half angle `deg * pi / 360` in
radians), the angular convention of `get_relative_orientation` per spec
section 4.1. -/
noncomputable def yaw_quaternion (deg : Real) : Quaternion Real :=
  ⟨Real.cos (deg * Real.pi / 360), 0, 0, Real.sin (deg * Real.pi / 360)⟩

/-- Modelled from the spec: `get_relative_orientation` lives in
`cliport_label.utils`, outside this repository slice.  Per spec section 4.1 it
returns the reference orientation rotated by the given angle (in degrees)
about the vertical axis. -/
noncomputable def get_relative_orientation (q : Quaternion Real) (deg : Real) :
    Quaternion Real :=
  yaw_quaternion deg * q

/-- The target quaternion as `pick`/`place` compute it (lines 161-165 and
219-223 of the source): `get_relative_orientation(ee_wxyz, rotation *
rotation_angles)` applied to the home end-effector orientation. -/
noncomputable def resolve_target_quaternion (ref : Quaternion Real) (r : Int) :
    Quaternion Real :=
  get_relative_orientation ref (((r * rotation_angles : Int) : Real))

/-- C7: for every rotation class `r`, the resolved target quaternion is the
reference (home end-effector) orientation rotated by `r * rotation_angles`
with `rotation_angles` the fixed constant 10; for `r = 0` the reference
orientation is returned unchanged. -/
theorem resolve_rotation_spec (ref : Quaternion Real) (r : Int) :
    resolve_target_quaternion ref r = yaw_quaternion ((r : Real) * 10) * ref ∧
    resolve_target_quaternion ref 0 = ref := by
  constructor
  · unfold resolve_target_quaternion get_relative_orientation rotation_angles
    push_cast
    rfl
  · have hq : yaw_quaternion (((0 * rotation_angles : Int) : Real)) = 1 := by
      unfold yaw_quaternion
      ext <;> simp [rotation_angles]
    unfold resolve_target_quaternion get_relative_orientation
    rw [hq, one_mul]

end CliportLabel
